import Mathlib

/-!
Verification of the mathquiz repository's core logic against its
natural-language specification.

The JavaScript source is shallowly embedded: JS numbers that only ever hold
integers become `Int` (or `Nat` for counters), `Math.random()`-backed draws
become explicit `Nat` parameters or streams (`Nat → Nat`), where a draw in
the range `[min, max]` is modelled as `min + r % (max - min + 1)`, which has
exactly the support of `Math.floor(Math.random() * (max - min + 1)) + min`.
Thrown exceptions become an explicit `Option String` error component.
-/

namespace MathQuiz

/-- The four arithmetic operations of `math-engine.js`. -/
inductive Operation
  | addition
  | subtraction
  | multiplication
  | division
  deriving DecidableEq, Repr

/-- The three difficulty tiers (keys of `this.difficulties`). -/
inductive Tier
  | beginner
  | intermediate
  | advanced
  deriving DecidableEq, Repr

/-- Operand range for addition / subtraction / multiplication
(the unused presentation-only `digits` field is omitted). -/
structure OpRange where
  min : Int
  max : Int
  deriving DecidableEq, Repr

/-- Division configuration: the allowed divisor set. -/
structure DivisionCfg where
  divisors : List Int
  deriving DecidableEq, Repr

/-- Per-tier configuration object, from the `MathEngine` constructor. -/
structure TierConfig where
  addition : OpRange
  subtraction : OpRange
  multiplication : OpRange
  division : DivisionCfg
  deriving DecidableEq, Repr

/-- `this.difficulties` from the `MathEngine` constructor. -/
def difficulties : Tier → TierConfig
  | .beginner =>
      { addition := ⟨1, 10⟩, subtraction := ⟨1, 10⟩,
        multiplication := ⟨0, 5⟩, division := ⟨[2, 5, 10]⟩ }
  | .intermediate =>
      { addition := ⟨1, 99⟩, subtraction := ⟨1, 50⟩,
        multiplication := ⟨0, 10⟩, division := ⟨[2, 3, 4, 5, 10]⟩ }
  | .advanced =>
      { addition := ⟨1, 99⟩, subtraction := ⟨1, 99⟩,
        multiplication := ⟨0, 12⟩, division := ⟨[1, 2, 3, 4, 5]⟩ }

/-- `this.operations` from the `MathEngine` constructor: the weighted
operation pool per tier. -/
def operations : Tier → List Operation
  | .beginner => [.addition, .subtraction, .multiplication, .addition, .subtraction]
  | .intermediate => [.addition, .subtraction, .multiplication, .division]
  | .advanced => [.addition, .subtraction, .multiplication, .division, .division]

/-- `getRandomNumber(min, max)`: a uniform draw in `[min, max]`, with the
ambient `Math.random()` made explicit as the draw `r`. -/
def getRandomNumber (min max : Int) (r : Nat) : Int :=
  min + ((r % (max - min + 1).toNat : Nat) : Int)

/-- A generated problem object (`operation`, `question`, `answer`,
`operands`, `difficulty`). -/
structure Problem where
  operation : Operation
  question : String
  answer : Int
  operands : Int × Int
  difficulty : Tier
  deriving DecidableEq, Repr

/-- `generateAddition(config)`. -/
def generateAddition (t : Tier) (config : OpRange) (r1 r2 : Nat) : Problem :=
  let a := getRandomNumber config.min config.max r1
  let b := getRandomNumber config.min config.max r2
  { operation := .addition,
    question := toString a ++ " + " ++ toString b,
    answer := a + b,
    operands := (a, b),
    difficulty := t }

/-- `generateSubtraction(config)`: second operand drawn from
`[min, Math.min(a, max)]`, then swapped if needed so the result is ≥ 0. -/
def generateSubtraction (t : Tier) (config : OpRange) (r1 r2 : Nat) : Problem :=
  let a := getRandomNumber config.min config.max r1
  let b := getRandomNumber config.min (min a config.max) r2
  if a < b then
    { operation := .subtraction,
      question := toString b ++ " - " ++ toString a,
      answer := b - a,
      operands := (b, a),
      difficulty := t }
  else
    { operation := .subtraction,
      question := toString a ++ " - " ++ toString b,
      answer := a - b,
      operands := (a, b),
      difficulty := t }

/-- `generateMultiplication(config)`. -/
def generateMultiplication (t : Tier) (config : OpRange) (r1 r2 : Nat) : Problem :=
  let a := getRandomNumber config.min config.max r1
  let b := getRandomNumber config.min config.max r2
  { operation := .multiplication,
    question := toString a ++ " × " ++ toString b,
    answer := a * b,
    operands := (a, b),
    difficulty := t }

/-- `generateDivision(config)`: divisor drawn from the tier's divisor set,
quotient from `[1, 12]`, dividend = divisor × quotient. -/
def generateDivision (t : Tier) (config : DivisionCfg) (r1 r2 : Nat) : Problem :=
  let divisor := config.divisors.getD (r1 % config.divisors.length) 0
  let quotient := getRandomNumber 1 12 r2
  let dividend := divisor * quotient
  { operation := .division,
    question := toString dividend ++ " ÷ " ++ toString divisor,
    answer := quotient,
    operands := (dividend, divisor),
    difficulty := t }

/-- The `switch (selectedOperation)` dispatch of `generateProblem`. -/
def dispatchOperation (t : Tier) (op : Operation) (r1 r2 : Nat) : Problem :=
  match op with
  | .addition => generateAddition t (difficulties t).addition r1 r2
  | .subtraction => generateSubtraction t (difficulties t).subtraction r1 r2
  | .multiplication => generateMultiplication t (difficulties t).multiplication r1 r2
  | .division => generateDivision t (difficulties t).division r1 r2

/-- `generateProblem(operation = null)` at a fixed tier: if no operation is
forced, one is drawn from the tier's weighted pool. -/
def generateProblemForTier (t : Tier) (op? : Option Operation) (r0 r1 r2 : Nat) : Problem :=
  let availableOperations := operations t
  let selectedOperation :=
    match op? with
    | some op => op
    | none => availableOperations.getD (r0 % availableOperations.length) .addition
  dispatchOperation t selectedOperation r1 r2

/-- The `MathEngine` mutable state: just `currentDifficulty`. -/
structure MathEngine where
  currentDifficulty : Tier
  deriving DecidableEq, Repr

/-- The `MathEngine` constructor sets `currentDifficulty = 'beginner'`. -/
def MathEngine.init : MathEngine := ⟨.beginner⟩

/-- Which tier name strings are keys of `this.difficulties`. -/
def tierOfString (s : String) : Option Tier :=
  if s = "beginner" then some .beginner
  else if s = "intermediate" then some .intermediate
  else if s = "advanced" then some .advanced
  else none

/-- `setDifficulty(difficulty)`: sets the tier if known, otherwise throws
`Invalid difficulty: ...`.  The result pairs the post-call engine state with
the thrown error message, if any. -/
def MathEngine.setDifficulty (e : MathEngine) (s : String) : MathEngine × Option String :=
  match tierOfString s with
  | some t => ({ currentDifficulty := t }, none)
  | none => (e, some ("Invalid difficulty: " ++ s))

/-- `generateProblem` on an engine: generates at `currentDifficulty`. -/
def MathEngine.generateProblem (e : MathEngine) (op? : Option Operation) (r0 r1 r2 : Nat) :
    Problem :=
  generateProblemForTier e.currentDifficulty op? r0 r1 r2

/-- A JavaScript value submitted as an answer: a (finite integral) number,
the number `NaN`, or a non-number value. -/
inductive JSValue
  | num (x : Int)
  | nan
  | nonNumber
  deriving DecidableEq, Repr

/-- `validateAnswer(userAnswer, correctAnswer, tolerance = 0)`:
false for non-numbers and `NaN`, otherwise `|userAnswer - correctAnswer| <= tolerance`. -/
def validateAnswer (userAnswer : JSValue) (correctAnswer : Int) (tolerance : Int) : Bool :=
  match userAnswer with
  | .num x => decide (|x - correctAnswer| ≤ tolerance)
  | .nan => false
  | .nonNumber => false

/-- Re-applying an operation to a problem's operands
(division is exact integer division on generated problems). -/
def applyOperation : Operation → Int × Int → Int
  | .addition, (a, b) => a + b
  | .subtraction, (a, b) => a - b
  | .multiplication, (a, b) => a * b
  | .division, (a, b) => a / b

/-- The division part of the Problem invariant, as a decidable check:
for division problems the dividend is divisible by the divisor and the
divisor belongs to the tier's configured divisor set. -/
def divisionInvariant (t : Tier) (p : Problem) : Bool :=
  match p.operation with
  | .division =>
      (p.operands.1 % p.operands.2 == 0) &&
        decide (p.operands.2 ∈ (difficulties t).division.divisors)
  | _ => true

/-! ### Range facts about `getRandomNumber` -/

theorem getRandomNumber_ge (min max : Int) (r : Nat) : min ≤ getRandomNumber min max r := by
  unfold getRandomNumber
  have : (0 : Int) ≤ ((r % (max - min + 1).toNat : Nat) : Int) := Int.ofNat_nonneg _
  omega

theorem getRandomNumber_le (min max : Int) (h : min ≤ max) (r : Nat) :
    getRandomNumber min max r ≤ max := by
  unfold getRandomNumber
  have hpos : 0 < (max - min + 1).toNat := by omega
  have hlt : r % (max - min + 1).toNat < (max - min + 1).toNat := Nat.mod_lt _ hpos
  have hcast : ((r % (max - min + 1).toNat : Nat) : Int) < ((max - min + 1).toNat : Int) :=
    Int.ofNat_lt.mpr hlt
  have htn : ((max - min + 1).toNat : Int) = max - min + 1 := Int.toNat_of_nonneg (by omega)
  omega

/-! ### Per-generator invariants -/

theorem divisionInvariant_nondiv (t : Tier) (p : Problem)
    (h : ¬ p.operation = Operation.division) : divisionInvariant t p = true := by
  cases p with
  | mk op q ans ops d =>
    cases op
    · rfl
    · rfl
    · rfl
    · exact absurd rfl h

theorem divisionInvariant_div (t : Tier) (q : String) (ans : Int) (ops : Int × Int) (d : Tier)
    (h4 : ops.1 % ops.2 = 0) (h5 : ops.2 ∈ (difficulties t).division.divisors) :
    divisionInvariant t ⟨.division, q, ans, ops, d⟩ = true := by
  simp only [divisionInvariant, Bool.and_eq_true, beq_iff_eq, decide_eq_true_eq]
  exact ⟨h4, h5⟩

theorem generateAddition_ok (t : Tier) (config : OpRange) (hmin : 0 ≤ config.min)
    (r1 r2 : Nat) :
    let p := generateAddition t config r1 r2
    applyOperation p.operation p.operands = p.answer ∧ 0 ≤ p.answer ∧
      p.operation = .addition := by
  have h1 := getRandomNumber_ge config.min config.max r1
  have h2 := getRandomNumber_ge config.min config.max r2
  dsimp only [generateAddition, applyOperation]
  exact ⟨rfl, by omega, rfl⟩

theorem generateSubtraction_ok (t : Tier) (config : OpRange) (r1 r2 : Nat) :
    let p := generateSubtraction t config r1 r2
    applyOperation p.operation p.operands = p.answer ∧ 0 ≤ p.answer ∧
      p.operation = .subtraction := by
  dsimp only [generateSubtraction]
  split
  next h => exact ⟨rfl, by dsimp only [applyOperation]; omega, rfl⟩
  next h => exact ⟨rfl, by dsimp only [applyOperation]; omega, rfl⟩

theorem generateMultiplication_ok (t : Tier) (config : OpRange) (hmin : 0 ≤ config.min)
    (r1 r2 : Nat) :
    let p := generateMultiplication t config r1 r2
    applyOperation p.operation p.operands = p.answer ∧ 0 ≤ p.answer ∧
      p.operation = .multiplication := by
  have h1 := getRandomNumber_ge config.min config.max r1
  have h2 := getRandomNumber_ge config.min config.max r2
  dsimp only [generateMultiplication, applyOperation]
  exact ⟨rfl, mul_nonneg (by omega) (by omega), rfl⟩

theorem getD_mem_of_lt {l : List Int} (i : Nat) (hi : i < l.length)
    (d : Int) : l.getD i d ∈ l := by
  rw [List.getD_eq_getElem l d hi]
  exact List.getElem_mem hi

theorem generateDivision_ok (t : Tier) (config : DivisionCfg)
    (hne : config.divisors ≠ []) (hpos : ∀ x ∈ config.divisors, 0 < x) (r1 r2 : Nat) :
    let p := generateDivision t config r1 r2
    applyOperation p.operation p.operands = p.answer ∧ 0 ≤ p.answer ∧
      p.operation = .division ∧ p.operands.1 % p.operands.2 = 0 ∧
      p.operands.2 ∈ config.divisors := by
  have hlen : 0 < config.divisors.length := List.length_pos.mpr hne
  have hidx : r1 % config.divisors.length < config.divisors.length := Nat.mod_lt _ hlen
  have hmem : config.divisors.getD (r1 % config.divisors.length) 0 ∈ config.divisors :=
    getD_mem_of_lt _ hidx 0
  have hdpos : 0 < config.divisors.getD (r1 % config.divisors.length) 0 := hpos _ hmem
  have hq : (1 : Int) ≤ getRandomNumber 1 12 r2 := getRandomNumber_ge 1 12 r2
  dsimp only [generateDivision, applyOperation]
  refine ⟨Int.mul_ediv_cancel_left _ (by omega), by omega, rfl,
    Int.mul_emod_right _ _, hmem⟩

/-- Invariant of `dispatchOperation`: holds at every tier for every operation. -/
theorem dispatchOperation_ok (t : Tier) (op : Operation) (r1 r2 : Nat) :
    let p := dispatchOperation t op r1 r2
    applyOperation p.operation p.operands = p.answer ∧ 0 ≤ p.answer ∧
      divisionInvariant t p = true := by
  have hmin_add : 0 ≤ (difficulties t).addition.min := by cases t <;> decide
  have hmin_mul : 0 ≤ (difficulties t).multiplication.min := by cases t <;> decide
  have hne : (difficulties t).division.divisors ≠ [] := by cases t <;> decide
  have hpos : ∀ x ∈ (difficulties t).division.divisors, 0 < x := by cases t <;> decide
  cases op
  · obtain ⟨h1, h2, h3⟩ := generateAddition_ok t (difficulties t).addition hmin_add r1 r2
    exact ⟨h1, h2, by
      dsimp only [dispatchOperation]
      exact divisionInvariant_nondiv t _ (by rw [h3]; decide)⟩
  · obtain ⟨h1, h2, h3⟩ := generateSubtraction_ok t (difficulties t).subtraction r1 r2
    exact ⟨h1, h2, by
      dsimp only [dispatchOperation]
      exact divisionInvariant_nondiv t _ (by rw [h3]; decide)⟩
  · obtain ⟨h1, h2, h3⟩ :=
      generateMultiplication_ok t (difficulties t).multiplication hmin_mul r1 r2
    exact ⟨h1, h2, by
      dsimp only [dispatchOperation]
      exact divisionInvariant_nondiv t _ (by rw [h3]; decide)⟩
  · obtain ⟨h1, h2, h3, h4, h5⟩ :=
      generateDivision_ok t (difficulties t).division hne hpos r1 r2
    refine ⟨h1, h2, ?_⟩
    show divisionInvariant t (generateDivision t (difficulties t).division r1 r2) = true
    dsimp only [generateDivision] at h4 h5 ⊢
    exact divisionInvariant_div t _ _ _ _ h4 h5

/-- Claim C1: for every problem returned by `generateProblem` (any tier, any
forced or randomly drawn operation, any random draws), applying the problem's
operation to its operands yields exactly its answer; the answer is a
non-negative integer; and for division problems the dividend is divisible by
the divisor, with the divisor drawn from the tier's configured divisor set. -/
theorem claim_C1_generateProblem_invariants (t : Tier) (op? : Option Operation)
    (r0 r1 r2 : Nat) :
    let p := generateProblemForTier t op? r0 r1 r2
    applyOperation p.operation p.operands = p.answer ∧ 0 ≤ p.answer ∧
      divisionInvariant t p = true := by
  unfold generateProblemForTier
  exact dispatchOperation_ok t _ r1 r2

/-- Claim C7: `validateAnswer` is a total function (never throws); it returns
false on every non-numeric or NaN user answer; on a numeric answer it returns
true exactly when `|userAnswer - correctAnswer| <= tolerance`; in particular
`validate(x, x, 0)` is true and `validate(x, x+1, 0)` is false for every
integer `x`. -/
theorem claim_C7_validateAnswer (x correctAnswer tolerance : Int) :
    validateAnswer .nan correctAnswer tolerance = false ∧
    validateAnswer .nonNumber correctAnswer tolerance = false ∧
    validateAnswer (.num x) correctAnswer tolerance = decide (|x - correctAnswer| ≤ tolerance) ∧
    validateAnswer (.num x) x 0 = true ∧
    validateAnswer (.num x) (x + 1) 0 = false := by
  refine ⟨rfl, rfl, rfl, by simp [validateAnswer], by simp [validateAnswer]⟩

/-- Claim C8: `setDifficulty` with an unknown tier name throws an
invalid-difficulty error and leaves `currentDifficulty` unchanged; with a
known tier name it succeeds and throws nothing; the constructor initialises
`currentDifficulty` to beginner, so `generateProblem` before any
`setDifficulty` call generates with the beginner configuration. -/
theorem claim_C8_setDifficulty (e : MathEngine) (s : String) :
    (tierOfString s = none →
      e.setDifficulty s = (e, some ("Invalid difficulty: " ++ s))) ∧
    (∀ t : Tier, tierOfString s = some t → e.setDifficulty s = (⟨t⟩, none)) ∧
    MathEngine.init.currentDifficulty = Tier.beginner ∧
    (∀ op? r0 r1 r2, MathEngine.init.generateProblem op? r0 r1 r2 =
      generateProblemForTier .beginner op? r0 r1 r2) := by
  refine ⟨?_, ?_, rfl, fun _ _ _ _ => rfl⟩
  · intro h
    unfold MathEngine.setDifficulty
    rw [h]
  · intro t h
    unfold MathEngine.setDifficulty
    rw [h]

/-- Witness for C8 at a concrete unknown tier name and a concrete known one. -/
theorem claim_C8_witness :
    MathEngine.init.setDifficulty "expert" =
      (MathEngine.init, some ("Invalid difficulty: " ++ "expert")) ∧
    MathEngine.init.setDifficulty "advanced" = (⟨.advanced⟩, none) := by
  refine ⟨(claim_C8_setDifficulty MathEngine.init "expert").1 rfl, ?_⟩
  exact (claim_C8_setDifficulty MathEngine.init "advanced").2.1 .advanced rfl

/-! ## The main game progression state machine (`game.js`) -/

/-- The `this.gameState` object of the `Game` class (`startTime` is real wall
clock time and presentation-only, so it is omitted). -/
structure GameState where
  score : Nat
  streak : Nat
  bestStreak : Nat
  level : Nat
  problemsSolved : Nat
  correctAnswers : Nat
  difficulty : String
  isActive : Bool
  problemsPerLevel : Nat
  currentLevelProgress : Nat
  deriving DecidableEq, Repr

/-- The initial `gameState` from the `Game` constructor. -/
def initialGameState : GameState :=
  { score := 0, streak := 0, bestStreak := 0, level := 1, problemsSolved := 0,
    correctAnswers := 0, difficulty := "beginner", isActive := false,
    problemsPerLevel := 10, currentLevelProgress := 0 }

/-- `getBasePoints()`: base points for the current difficulty, defaulting
to 10 for an unknown name (`pointsMap[difficulty] || 10`). -/
def getBasePoints (difficulty : String) : Nat :=
  if difficulty = "beginner" then 10
  else if difficulty = "intermediate" then 15
  else if difficulty = "advanced" then 20
  else 10

/-- `triggerMinigame()`: pauses the main game (`isActive = false`); the
animation and the delayed `startMinigame` call are presentation effects. -/
def triggerMinigame (g : GameState) : GameState :=
  { g with isActive := false }

/-- `checkLevelUp()`: fires the level-complete transition when
`currentLevelProgress >= problemsPerLevel`.  The Bool reports whether the
transition fired. -/
def checkLevelUp (g : GameState) : GameState × Bool :=
  if g.currentLevelProgress ≥ g.problemsPerLevel then (triggerMinigame g, true)
  else (g, false)

/-- `handleCorrectAnswer`: bump correct count and streak, track best streak,
add `basePoints + floor(streak/3)*2` points, bump level progress, then
`checkLevelUp`. -/
def handleCorrectAnswer (g : GameState) : GameState × Bool :=
  let g := { g with correctAnswers := g.correctAnswers + 1, streak := g.streak + 1 }
  let g := if g.streak > g.bestStreak then { g with bestStreak := g.streak } else g
  let basePoints := getBasePoints g.difficulty
  let streakBonus := g.streak / 3 * 2
  let points := basePoints + streakBonus
  let g := { g with score := g.score + points,
                    currentLevelProgress := g.currentLevelProgress + 1 }
  checkLevelUp g

/-- `handleIncorrectAnswer`: reset the streak; nothing else changes. -/
def handleIncorrectAnswer (g : GameState) : GameState :=
  { g with streak := 0 }

/-- `submitAnswer(userAnswer)`: no-op unless active with a current problem;
validates, bumps `problemsSolved`, then dispatches to the correct/incorrect
handler.  The Bool reports whether the level-complete transition fired. -/
def submitAnswer (g : GameState) (currentProblem : Option Problem) (userAnswer : JSValue) :
    GameState × Bool :=
  match g.isActive, currentProblem with
  | true, some p =>
    let isCorrect := validateAnswer userAnswer p.answer 0
    let g := { g with problemsSolved := g.problemsSolved + 1 }
    if isCorrect then handleCorrectAnswer g
    else (handleIncorrectAnswer g, false)
  | _, _ => (g, false)

/-- Run a sequence of submissions (each with its current problem and the
player's answer), counting how many times the level-complete transition
fired. -/
def runSubmissions (g : GameState) : List (Problem × JSValue) → GameState × Nat
  | [] => (g, 0)
  | pv :: rest =>
    let r := submitAnswer g (some pv.1) pv.2
    let f := runSubmissions r.1 rest
    (f.1, (if r.2 then 1 else 0) + f.2)

/-- Number of submissions in the list that validate as correct. -/
def countCorrect (subs : List (Problem × JSValue)) : Nat :=
  subs.countP (fun pv => validateAnswer pv.2 pv.1.answer 0)

/-- The full `Game` object state: engine, game state, current problem. -/
structure Game where
  mathEngine : MathEngine
  gameState : GameState
  currentProblem : Option Problem
  deriving DecidableEq, Repr

/-- The `Game` constructor's state (before any `startGame`). -/
def initialGame : Game :=
  { mathEngine := MathEngine.init, gameState := initialGameState, currentProblem := none }

/-- `startGame(difficulty)`: records the difficulty, calls the engine's
`setDifficulty` (whose throw on an unknown name is caught and mapped to the
`handleGameError` safe state `isActive = false`), resets the counters via
`resetGameState` (which does NOT touch `bestStreak`), activates the game and
generates the first problem. -/
def Game.startGame (game : Game) (difficulty : String) (r0 r1 r2 : Nat) : Game :=
  let gs0 := { game.gameState with difficulty := difficulty }
  match tierOfString difficulty with
  | none =>
    -- mathEngine.setDifficulty threw before resetGameState ran; handleGameError
    { game with gameState := { gs0 with isActive := false } }
  | some t =>
    let engine : MathEngine := ⟨t⟩
    let gs :=
      { gs0 with
        score := 0, streak := 0, level := 1, problemsSolved := 0,
        correctAnswers := 0, isActive := true, currentLevelProgress := 0 }
    { mathEngine := engine, gameState := gs,
      currentProblem := some (engine.generateProblem none r0 r1 r2) }

/-- The game state right after `startGame('beginner')` on a fresh game. -/
def startedBeginner : GameState := (initialGame.startGame "beginner" 0 0 0).gameState

/-- A fixed beginner problem used in concrete scenarios: `1 + 1 = 2`. -/
def problemOnePlusOne : Problem :=
  { operation := .addition, question := "1 + 1", answer := 2, operands := (1, 1),
    difficulty := .beginner }

/-! ### Claim C4: per-answer scoring and streak updates -/

/-- Claim C4: while active with a current problem, a correct answer bumps the
streak, records the best streak as a max, and adds exactly
`basePoints(tier) + floor(newStreak/3)*2` points (base points 10/15/20 for
beginner/intermediate/advanced); an incorrect answer zeroes the streak and
leaves the score unchanged; reaching streak 3 adds `basePoints + 2` and
reaching streak 6 adds `basePoints + 4`. -/
theorem claim_C4_scoring (g : GameState) (p : Problem) (v : JSValue)
    (hact : g.isActive = true) :
    (validateAnswer v p.answer 0 = true →
      let r := (submitAnswer g (some p) v).1
      r.streak = g.streak + 1 ∧
      r.bestStreak = max g.bestStreak (g.streak + 1) ∧
      r.score = g.score + (getBasePoints g.difficulty + (g.streak + 1) / 3 * 2)) ∧
    (validateAnswer v p.answer 0 = false →
      let r := (submitAnswer g (some p) v).1
      r.streak = 0 ∧ r.score = g.score) ∧
    getBasePoints "beginner" = 10 ∧
    getBasePoints "intermediate" = 15 ∧
    getBasePoints "advanced" = 20 ∧
    (g.streak = 2 → validateAnswer v p.answer 0 = true →
      (submitAnswer g (some p) v).1.score = g.score + (getBasePoints g.difficulty + 2)) ∧
    (g.streak = 5 → validateAnswer v p.answer 0 = true →
      (submitAnswer g (some p) v).1.score = g.score + (getBasePoints g.difficulty + 4)) := by
  have hmain : validateAnswer v p.answer 0 = true →
      let r := (submitAnswer g (some p) v).1
      r.streak = g.streak + 1 ∧
      r.bestStreak = max g.bestStreak (g.streak + 1) ∧
      r.score = g.score + (getBasePoints g.difficulty + (g.streak + 1) / 3 * 2) := by
    intro hv
    unfold submitAnswer
    rw [hact]
    dsimp only
    rw [hv, if_pos rfl]
    unfold handleCorrectAnswer checkLevelUp triggerMinigame
    dsimp only
    split
    all_goals
      split
      all_goals
        dsimp only
        refine ⟨rfl, by omega, rfl⟩
  refine ⟨hmain, ?_, rfl, rfl, rfl, ?_, ?_⟩
  · intro hv
    unfold submitAnswer
    rw [hact]
    dsimp only
    rw [hv, if_neg (by simp)]
    unfold handleIncorrectAnswer
    exact ⟨rfl, rfl⟩
  · intro hs hv
    have h := (hmain hv).2.2
    rw [hs] at h
    exact h
  · intro hs hv
    have h := (hmain hv).2.2
    rw [hs] at h
    exact h

/-- Witness for C4: a concrete active game at streak 2 answering `1 + 1`
correctly gains `basePoints + 2 = 12` points. -/
theorem claim_C4_witness :
    (submitAnswer { initialGameState with isActive := true, streak := 2 }
        (some problemOnePlusOne) (.num 2)).1.score =
      { initialGameState with isActive := true, streak := 2 }.score +
        (getBasePoints { initialGameState with isActive := true, streak := 2 }.difficulty
          + 2) := by
  exact (claim_C4_scoring { initialGameState with isActive := true, streak := 2 }
    problemOnePlusOne (.num 2) rfl).2.2.2.2.2.1 rfl (by decide)

/-! ### Claim C3: the level-complete trigger -/

theorem submitAnswer_inactive (g : GameState) (p? : Option Problem) (v : JSValue)
    (hact : g.isActive = false) : submitAnswer g p? v = (g, false) := by
  unfold submitAnswer
  rw [hact]

/-- The state produced by a correct answer (before the level-up check). -/
def correctStepState (g : GameState) : GameState :=
  { g with problemsSolved := g.problemsSolved + 1,
           correctAnswers := g.correctAnswers + 1,
           streak := g.streak + 1,
           bestStreak := max g.bestStreak (g.streak + 1),
           score := g.score + (getBasePoints g.difficulty + (g.streak + 1) / 3 * 2),
           currentLevelProgress := g.currentLevelProgress + 1 }

theorem submitAnswer_correct_step (g : GameState) (p : Problem) (v : JSValue)
    (hact : g.isActive = true) (hv : validateAnswer v p.answer 0 = true) :
    submitAnswer g (some p) v =
      if g.currentLevelProgress + 1 ≥ g.problemsPerLevel
      then ({ correctStepState g with isActive := false }, true)
      else (correctStepState g, false) := by
  unfold submitAnswer
  rw [hact]
  dsimp only
  rw [hv, if_pos rfl]
  unfold handleCorrectAnswer checkLevelUp triggerMinigame correctStepState
  dsimp only
  by_cases hbs : g.streak + 1 > g.bestStreak
  · rw [if_pos hbs, Nat.max_eq_right (by omega), hact]
  · rw [if_neg hbs, Nat.max_eq_left (by omega), hact]

theorem submitAnswer_incorrect_step (g : GameState) (p : Problem) (v : JSValue)
    (hact : g.isActive = true) (hv : validateAnswer v p.answer 0 = false) :
    submitAnswer g (some p) v =
      ({ g with problemsSolved := g.problemsSolved + 1, streak := 0 }, false) := by
  unfold submitAnswer
  rw [hact]
  dsimp only
  rw [hv, if_neg (by simp)]
  rfl

/-- The level-complete trigger count over a run of submissions: starting
from an active state below the threshold it fires exactly when the number of
correct submissions reaches the remaining quota, and an inactive game fires
nothing. -/
theorem runSubmissions_fires (subs : List (Problem × JSValue)) :
    ∀ g : GameState, g.problemsPerLevel = 10 →
      (g.isActive = true → g.currentLevelProgress < 10 →
        (runSubmissions g subs).2 =
          if 10 ≤ g.currentLevelProgress + countCorrect subs then 1 else 0) ∧
      (g.isActive = false → (runSubmissions g subs).2 = 0) := by
  induction subs with
  | nil =>
    intro g hper
    refine ⟨fun hact hlt => ?_, fun hact => rfl⟩
    show (0 : Nat) = _
    rw [if_neg (by unfold countCorrect; simp; omega)]
  | cons pv rest ih =>
    intro g hper
    have hcss_per : (correctStepState g).problemsPerLevel = g.problemsPerLevel := rfl
    have hcss_prog : (correctStepState g).currentLevelProgress =
      g.currentLevelProgress + 1 := rfl
    constructor
    · intro hact hlt
      show (if (submitAnswer g (some pv.1) pv.2).2 then 1 else 0) +
        (runSubmissions (submitAnswer g (some pv.1) pv.2).1 rest).2 = _
      by_cases hv : validateAnswer pv.2 pv.1.answer 0 = true
      · rw [submitAnswer_correct_step g pv.1 pv.2 hact hv]
        have hcc : countCorrect (pv :: rest) = 1 + countCorrect rest := by
          unfold countCorrect
          rw [List.countP_cons]
          simp [hv]
          omega
        by_cases hfull : g.currentLevelProgress + 1 ≥ g.problemsPerLevel
        · rw [if_pos hfull]
          dsimp only
          rw [(ih { correctStepState g with isActive := false } hper).2 rfl]
          rw [hcc,
            if_pos (show 10 ≤ g.currentLevelProgress + (1 + countCorrect rest) by omega)]
          rfl
        · rw [if_neg hfull]
          dsimp only
          rw [(ih (correctStepState g) hper).1 hact
            (show g.currentLevelProgress + 1 < 10 by omega)]
          rw [hcss_prog, hcc]
          simp only [Bool.false_eq_true, if_false, Nat.zero_add]
          by_cases hend : 10 ≤ g.currentLevelProgress + (1 + countCorrect rest)
          · rw [if_pos (show 10 ≤ g.currentLevelProgress + 1 + countCorrect rest by omega),
              if_pos hend]
          · rw [if_neg (show ¬ 10 ≤ g.currentLevelProgress + 1 + countCorrect rest by omega),
              if_neg hend]
      · rw [submitAnswer_incorrect_step g pv.1 pv.2 hact (by simpa using hv)]
        dsimp only
        rw [(ih { g with problemsSolved := g.problemsSolved + 1, streak := 0 } hper).1
          hact hlt]
        have hcc : countCorrect (pv :: rest) = countCorrect rest := by
          unfold countCorrect
          rw [List.countP_cons]
          simp [(by simpa using hv : validateAnswer pv.2 pv.1.answer 0 = false)]
        rw [hcc]
        simp only [Bool.false_eq_true, if_false, Nat.zero_add]
    · intro hact
      show (if (submitAnswer g (some pv.1) pv.2).2 then 1 else 0) +
        (runSubmissions (submitAnswer g (some pv.1) pv.2).1 rest).2 = 0
      rw [submitAnswer_inactive g _ pv.2 hact]
      dsimp only
      rw [(ih g hper).2 hact]
      rfl

/-- Claim C3 (amended): starting from a freshly started beginner game, the
level-complete transition (deactivate and trigger the minigame) fires exactly
once as soon as the number of CORRECT submissions reaches
`problemsPerLevel = 10`, and never before; incorrect submissions do not
advance `currentLevelProgress`, so they do not count towards the quota. -/
theorem claim_C3_level_complete_after_ten_correct (subs : List (Problem × JSValue)) :
    (runSubmissions startedBeginner subs).2 =
      if 10 ≤ countCorrect subs then 1 else 0 := by
  have h := (runSubmissions_fires subs startedBeginner rfl).1 rfl (by decide)
  have h0 : startedBeginner.currentLevelProgress = 0 := rfl
  rw [h0, Nat.zero_add] at h
  exact h

/-- Ten submissions of which one is wrong, against the claim's reading that
any ten submissions (correct or incorrect) trigger the transition. -/
def tenSubmissionsOneWrong : List (Problem × JSValue) :=
  (problemOnePlusOne, .num 3) :: List.replicate 9 (problemOnePlusOne, .num 2)

/-- Counterexample to C3 as stated: after exactly 10 submitted answers, one
of them incorrect, the level-complete transition has fired 0 times, not
exactly once. -/
theorem claim_C3_counterexample :
    tenSubmissionsOneWrong.length = 10 ∧
    (runSubmissions startedBeginner tenSubmissionsOneWrong).2 = 0 := by
  exact ⟨rfl, rfl⟩

/-! ### Claim C9: `startGame` resets -/

/-- Claim C9 (amended): `startGame` with a valid tier resets score, streak,
level, solved/correct counters and level progress, activates the game and
generates a first problem — but `resetGameState` does NOT reset `bestStreak`,
which keeps its value from before the call. -/
theorem claim_C9_startGame_resets (game : Game) (d : String) (t : Tier) (r0 r1 r2 : Nat)
    (hvalid : tierOfString d = some t) :
    let g' := game.startGame d r0 r1 r2
    g'.gameState.score = 0 ∧ g'.gameState.streak = 0 ∧ g'.gameState.level = 1 ∧
    g'.gameState.problemsSolved = 0 ∧ g'.gameState.correctAnswers = 0 ∧
    g'.gameState.currentLevelProgress = 0 ∧ g'.gameState.isActive = true ∧
    g'.currentProblem.isSome = true ∧
    g'.gameState.bestStreak = game.gameState.bestStreak := by
  unfold Game.startGame
  rw [hvalid]
  exact ⟨rfl, rfl, rfl, rfl, rfl, rfl, rfl, rfl, rfl⟩

/-- Witness for C9 on a fresh game started at beginner. -/
theorem claim_C9_witness :
    (initialGame.startGame "beginner" 0 0 0).gameState.isActive = true ∧
    (initialGame.startGame "beginner" 0 0 0).currentProblem.isSome = true := by
  have h := claim_C9_startGame_resets initialGame "beginner" .beginner 0 0 0 rfl
  exact ⟨h.2.2.2.2.2.2.1, h.2.2.2.2.2.2.2.1⟩

/-- A game whose previous session reached a best streak of 5. -/
def gameWithBestStreakFive : Game :=
  { initialGame with gameState := { initialGameState with bestStreak := 5 } }

/-- Counterexample to C9 as stated: restarting at beginner leaves
`bestStreak = 5`, not 0. -/
theorem claim_C9_counterexample :
    (gameWithBestStreakFive.startGame "beginner" 0 0 0).gameState.bestStreak = 5 := rfl

/-! ## The minigame (richer variant: input + choice spell modes) -/

/-- The two spell modes. -/
inductive SpellKind
  | input
  | choice
  deriving DecidableEq, Repr

/-- The three vertical catch positions. -/
inductive ChoicePos
  | high
  | middle
  | low
  deriving DecidableEq, Repr

/-- One positioned answer option.  Values are rationals because the
operand-error strategy uses JS float division. -/
structure ChoiceOption where
  value : Rat
  isCorrect : Bool
  deriving DecidableEq, Repr

/-- The result object of `generateChoiceOptions`. -/
structure ChoiceSet where
  correctPosition : ChoicePos
  high : ChoiceOption
  middle : ChoiceOption
  low : ChoiceOption
  deriving DecidableEq, Repr

/-- `generateWrongOperation(spell)`: recompute with a different operator. -/
def generateWrongOperation (spell : Problem) : Int :=
  let a := spell.operands.1
  let b := spell.operands.2
  match spell.operation with
  | .addition => if a - b > 0 then a - b else a + b + 1
  | .subtraction => a + b
  | .multiplication => a + b
  | .division => a * b

/-- `generateOperandError(spell)`: modify one operand by ±1 (clamped to ≥ 1)
and recompute with the original operator.  The two `Math.random() < 0.5`
coin flips are `modifyFirst` and `plusOne`.  For division this is JS float
division, so the result can be a non-integer rational. -/
def generateOperandError (spell : Problem) (modifyFirst plusOne : Bool) : Rat :=
  let a := spell.operands.1
  let b := spell.operands.2
  let modifier : Int := if plusOne then 1 else -1
  let newA : Int := if modifyFirst then max 1 (a + modifier) else a
  let newB : Int := if modifyFirst then b else max 1 (b + modifier)
  match spell.operation with
  | .addition => ((newA + newB : Int) : Rat)
  | .subtraction => ((max 0 (newA - newB) : Int) : Rat)
  | .multiplication => ((newA * newB : Int) : Rat)
  | .division => Rat.divInt newA newB

/-- The six wrong-answer strategies of `generateChoiceOptions`, in the order
of the JS `strategies` array. -/
inductive WrongStrategy
  | plusTwo
  | minusTwo
  | plusOne
  | minusOne
  | wrongOperation
  | operandError
  deriving DecidableEq, Repr

/-- Evaluate one strategy.  `rng`/`k` is the `Math.random()` draw stream and
the index of the next draw; only `operandError` consumes draws (its two coin
flips).  Returns the candidate value and the next draw index. -/
def runStrategy (spell : Problem) (rng : Nat → Nat) (k : Nat) :
    WrongStrategy → Rat × Nat
  | .plusTwo => (((spell.answer + 2 : Int) : Rat), k)
  | .minusTwo => (((spell.answer - 2 : Int) : Rat), k)
  | .plusOne => (((spell.answer + 1 : Int) : Rat), k)
  | .minusOne => (((spell.answer - 1 : Int) : Rat), k)
  | .wrongOperation => (((generateWrongOperation spell : Int) : Rat), k)
  | .operandError =>
      (generateOperandError spell (rng k % 2 == 0) (rng (k + 1) % 2 == 0), k + 2)

/-- The strategy-selection loop of `generateChoiceOptions`: while fewer than
2 wrong answers are collected and strategies remain, draw a random strategy,
keep its value if positive and unused, and remove the strategy from the
pool.  The strategy list shrinks every iteration, so running with `fuel = 6`
runs the JS `while` loop to completion.  Returns the wrong answers, the used
values and the next draw index. -/
def chooseWrongs (spell : Problem) (rng : Nat → Nat) :
    Nat → List WrongStrategy → List Rat → List Rat → Nat →
    List Rat × List Rat × Nat
  | 0, _, wrongAnswers, usedValues, k => (wrongAnswers, usedValues, k)
  | fuel + 1, strategies, wrongAnswers, usedValues, k =>
    if wrongAnswers.length < 2 ∧ strategies.length > 0 then
      let strategyIndex := rng k % strategies.length
      let strategy := strategies.getD strategyIndex .plusTwo
      let wa := runStrategy spell rng (k + 1) strategy
      let rest := strategies.eraseIdx strategyIndex
      if wa.1 > 0 ∧ wa.1 ∉ usedValues then
        chooseWrongs spell rng fuel rest (wrongAnswers ++ [wa.1])
          (usedValues ++ [wa.1]) wa.2
      else
        chooseWrongs spell rng fuel rest wrongAnswers usedValues wa.2
    else (wrongAnswers, usedValues, k)

/-- The fallback loop of `generateChoiceOptions`: random variations
`correct + (0..9) - 5` until two wrong answers are collected.  In JS this
`while` loop is bounded only probabilistically; `fuel` makes the recursion
explicit (it is never exhausted on traces where enough candidates exist). -/
def fallbackWrongs (correct : Int) (rng : Nat → Nat) :
    Nat → List Rat → List Rat → Nat → List Rat × Nat
  | 0, wrongAnswers, _, k => (wrongAnswers, k)
  | fuel + 1, wrongAnswers, usedValues, k =>
    if wrongAnswers.length < 2 then
      let variation : Rat := ((correct + ((rng k % 10 : Nat) : Int) - 5 : Int) : Rat)
      if variation > 0 ∧ variation ∉ usedValues then
        fallbackWrongs correct rng fuel (wrongAnswers ++ [variation])
          (usedValues ++ [variation]) (k + 1)
      else
        fallbackWrongs correct rng fuel wrongAnswers usedValues (k + 1)
    else (wrongAnswers, k)

/-- The JS `positions` array. -/
def positionsList : List ChoicePos := [.high, .middle, .low]

/-- `generateChoiceOptions(spell)`: two wrong answers from distinct random
strategies (with random fallback), then position assignment; the correct
position is drawn uniformly and the wrong slots are filled with
`wrongAnswers[index < wrongAnswers.length ? index : 0]` where `index` is the
position's index in `[high, middle, low]`. -/
def generateChoiceOptions (spell : Problem) (rng : Nat → Nat) (fallbackFuel : Nat) :
    ChoiceSet :=
  let correct : Rat := ((spell.answer : Int) : Rat)
  let r1 := chooseWrongs spell rng 6
    [.plusTwo, .minusTwo, .plusOne, .minusOne, .wrongOperation, .operandError]
    [] [correct] 0
  let r2 := fallbackWrongs spell.answer rng fallbackFuel r1.1 r1.2.1 r1.2.2
  let wrongAnswers := r2.1
  let correctPos := positionsList.getD (rng r2.2 % 3) .high
  let optionAt := fun (pos : ChoicePos) (index : Nat) =>
    if pos = correctPos then ChoiceOption.mk correct true
    else
      ChoiceOption.mk
        (wrongAnswers.getD (if index < wrongAnswers.length then index else 0) 0) false
  { correctPosition := correctPos,
    high := optionAt .high 0,
    middle := optionAt .middle 1,
    low := optionAt .low 2 }

/-- Concrete spell for the C2 evaluation: `5 + 3 = 8`. -/
def c2Spell : Problem :=
  { operation := .addition, question := "5 + 3", answer := 8, operands := (5, 3),
    difficulty := .beginner }

/-- Draw stream making the strategy loop pick +2 then −2, and the position
draw land on `middle`. -/
def c2Rng : Nat → Nat := fun n => if n == 2 then 1 else 0

/-- Concrete division spell for the C2 evaluation: `10 ÷ 2 = 5`. -/
def c2DivSpell : Problem :=
  { operation := .division, question := "10 ÷ 2", answer := 5, operands := (10, 2),
    difficulty := .beginner }

/-- Draw stream making the strategy loop pick operand-error first
(modifying the dividend by +1), then +2, with the correct position at high. -/
def c2DivRng : Nat → Nat := fun n => if n == 0 then 5 else 0

/-- Claim C2 evaluated at the failing inputs: when the correct answer is
assigned the `middle` position, the `high` and `low` slots both receive
`wrongAnswers[0]` (the `index : 0` fallback fires for index 2), so the three
option values are NOT pairwise distinct; and for a division spell the
operand-error strategy can produce the non-integer value 11/2.  Exactly one
option is still marked correct. -/
theorem claim_C2_duplicate_distractor :
    ((generateChoiceOptions c2Spell c2Rng 100).correctPosition = ChoicePos.middle ∧
     (generateChoiceOptions c2Spell c2Rng 100).middle.isCorrect = true ∧
     (generateChoiceOptions c2Spell c2Rng 100).high.isCorrect = false ∧
     (generateChoiceOptions c2Spell c2Rng 100).low.isCorrect = false ∧
     (generateChoiceOptions c2Spell c2Rng 100).high.value = ((10 : Int) : Rat) ∧
     (generateChoiceOptions c2Spell c2Rng 100).low.value = ((10 : Int) : Rat)) ∧
    ((generateChoiceOptions c2DivSpell c2DivRng 100).low.value = Rat.divInt 11 2 ∧
     ((generateChoiceOptions c2DivSpell c2DivRng 100).low.value).den = 2) := by
  decide


/-! ## Battle state and the timed event queue -/

/-- The mutable state of the `Minigame` class that the resolution logic
touches, plus counters for the terminal transitions (`defeatCount`,
`victoryCount`) and for the bonus points pushed to the main game score
(`bonusAwarded`).  `liveProjectiles` models the `spellProjectiles` array by
projectile id; `roundIdx` counts `castFirstSpell` calls to index the random
streams. -/
structure BattleState where
  isActive : Bool
  foxHealth : Int
  spellsRemaining : Int
  currentSpellType : SpellKind
  currentSpell : Option Problem
  choiceOptions : Option ChoiceSet
  foxPosition : ChoicePos
  liveProjectiles : List Nat
  nextProjId : Nat
  roundIdx : Nat
  spellSpeed : Nat
  difficulty : Tier
  defeatCount : Nat
  victoryCount : Nat
  bonusAwarded : Nat
  deriving DecidableEq, Repr

/-- The scheduled callbacks of `minigame.js`: the three per-position
collision checks at `spellSpeed - 500` (each capturing its flying answer's
`isCorrect` dataset), the choice auto-end at `spellSpeed + 500`, the 1500ms
continuations of incorrect/correct resolutions, the input-mode projectile
timeout at `spellSpeed`, the 1000ms next-cast after a projectile hit, and a
player answer submission. -/
inductive MgEvent
  | collisionCheck (pos : ChoicePos) (isCorrect : Bool)
  | autoEnd
  | afterIncorrect
  | afterCorrect
  | projectileHit (id : Nat)
  | castNextAfterHit
  | submitSpellAnswer (v : JSValue)
  deriving DecidableEq, Repr

/-- The bonus awarded on victory:
`50 + (advanced ? 30 : intermediate ? 15 : 0)`. -/
def victoryBonus (d : Tier) : Nat :=
  50 + (match d with
        | .advanced => 30
        | .intermediate => 15
        | .beginner => 0)

/-- `victory()`: deactivate, clear projectiles, add bonus points to the main
game score. -/
def victory (s : BattleState) : BattleState :=
  { s with isActive := false, liveProjectiles := [],
           victoryCount := s.victoryCount + 1,
           bonusAwarded := s.bonusAwarded + victoryBonus s.difficulty }

/-- `defeat()`: deactivate and clear projectiles (no bonus). -/
def defeat (s : BattleState) : BattleState :=
  { s with isActive := false, liveProjectiles := [],
           defeatCount := s.defeatCount + 1 }

/-- The random sources of a minigame session: the 70/30 spell-type coin per
round, the problem-generation draws per round, and the
`generateChoiceOptions` draw stream per round. -/
structure MgEnv where
  typeCoin : Nat → Bool
  probDraws : Nat → Nat × Nat × Nat
  choiceRng : Nat → Nat → Nat

/-- `castFirstSpell()`: victory if no spells remain, else clear all spells,
pick the spell type, generate a problem, and set up the round — an input
round creates a projectile whose timeout fires at `spellSpeed`; a choice
round builds the choice options, resets the fox to middle and schedules the
three collision checks (`spellSpeed - 500`) and the auto-end
(`spellSpeed + 500`).  Returns the new state and the newly scheduled events
as (delay, event) pairs. -/
def castFirstSpell (env : MgEnv) (s : BattleState) : BattleState × List (Nat × MgEvent) :=
  if s.spellsRemaining ≤ 0 then (victory s, [])
  else
    let s0 := { s with liveProjectiles := [], currentSpell := none }
    let idx := s0.roundIdx
    let kind := if env.typeCoin idx then SpellKind.input else SpellKind.choice
    let draws := env.probDraws idx
    let p := generateProblemForTier s0.difficulty none draws.1 draws.2.1 draws.2.2
    let s1 := { s0 with currentSpellType := kind, currentSpell := some p,
                        roundIdx := idx + 1 }
    match kind with
    | .input =>
      let id := s1.nextProjId
      ({ s1 with liveProjectiles := s1.liveProjectiles ++ [id], nextProjId := id + 1 },
       [(s1.spellSpeed, .projectileHit id)])
    | .choice =>
      let cs := generateChoiceOptions p (env.choiceRng idx) 100
      ({ s1 with choiceOptions := some cs, foxPosition := .middle },
       [(s1.spellSpeed - 500, .collisionCheck .high cs.high.isCorrect),
        (s1.spellSpeed - 500, .collisionCheck .middle cs.middle.isCorrect),
        (s1.spellSpeed - 500, .collisionCheck .low cs.low.isCorrect),
        (s1.spellSpeed + 500, .autoEnd)])

/-- `handleCorrectCatch` state effects: decrement the remaining spells and
schedule the 1500ms continuation (feedback/animation are presentation). -/
def handleCorrectCatch (s : BattleState) : BattleState × List (Nat × MgEvent) :=
  ({ s with spellsRemaining := s.spellsRemaining - 1 }, [(1500, .afterCorrect)])

/-- `handleIncorrectCatch` state effects: `foxHealth = max(0, foxHealth-25)`
and the 1500ms continuation. -/
def handleIncorrectCatch (s : BattleState) : BattleState × List (Nat × MgEvent) :=
  ({ s with foxHealth := max 0 (s.foxHealth - 25) }, [(1500, .afterIncorrect)])

/-- `handleMissedAnswers` state effects: identical damage to an incorrect
catch, plus the 1500ms continuation. -/
def handleMissedAnswers (s : BattleState) : BattleState × List (Nat × MgEvent) :=
  ({ s with foxHealth := max 0 (s.foxHealth - 25) }, [(1500, .afterIncorrect)])

/-- `spellDeflected()`: pop the newest projectile
(`removeCurrentSpellProjectile`), decrement the remaining spells, schedule
the 1500ms continuation. -/
def spellDeflected (s : BattleState) : BattleState × List (Nat × MgEvent) :=
  ({ s with liveProjectiles := s.liveProjectiles.dropLast,
            spellsRemaining := s.spellsRemaining - 1 }, [(1500, .afterCorrect)])

/-- `handleSpellDefense()`: no-op unless active with a current spell;
validate the typed answer; deflect on success.  A wrong or unparsable answer
only shows feedback (presentation) — the battle state is unchanged and no
new event is scheduled, so the player can retry. -/
def handleSpellDefense (s : BattleState) (v : JSValue) :
    BattleState × List (Nat × MgEvent) :=
  if s.isActive = false ∨ s.currentSpell = none then (s, [])
  else
    match s.currentSpell with
    | some p => if validateAnswer v p.answer 0 then spellDeflected s else (s, [])
    | none => (s, [])

/-- `spellHitsFox(projectile)`: remove the projectile, apply damage, go to
defeat synchronously at zero health, else schedule the next cast (1000ms). -/
def spellHitsFox (s : BattleState) (id : Nat) : BattleState × List (Nat × MgEvent) :=
  let s1 := { s with liveProjectiles := s.liveProjectiles.erase id,
                     foxHealth := max 0 (s.foxHealth - 25) }
  if s1.foxHealth ≤ 0 then (defeat s1, [])
  else (s1, [(1000, .castNextAfterHit)])

/-- Execute one scheduled event against the current state, with the guards
exactly as written at each callback site in the source. -/
def execMgEvent (env : MgEnv) (s : BattleState) :
    MgEvent → BattleState × List (Nat × MgEvent)
  | .collisionCheck pos isCorrect =>
    if s.isActive = true ∧ s.currentSpellType = .choice then
      if s.foxPosition = pos then
        if isCorrect then handleCorrectCatch s else handleIncorrectCatch s
      else (s, [])
    else (s, [])
  | .autoEnd =>
    if s.isActive = true ∧ s.currentSpellType = .choice then handleMissedAnswers s
    else (s, [])
  | .afterIncorrect =>
    if s.foxHealth ≤ 0 then (defeat s, [])
    else if s.isActive = true ∧ s.spellsRemaining > 0 then castFirstSpell env s
    else (s, [])
  | .afterCorrect =>
    if s.spellsRemaining > 0 then castFirstSpell env s else (victory s, [])
  | .projectileHit id =>
    if s.isActive = true ∧ id ∈ s.liveProjectiles then spellHitsFox s id
    else (s, [])
  | .castNextAfterHit =>
    if s.isActive = true ∧ s.spellsRemaining > 0 then castFirstSpell env s
    else (s, [])
  | .submitSpellAnswer v =>
    if s.currentSpellType = .input then handleSpellDefense s v else (s, [])

/-- An event with its absolute firing time. -/
structure TimedEvent where
  time : Nat
  ev : MgEvent
  deriving DecidableEq, Repr

/-- Insert into the queue keeping time order; equal deadlines keep FIFO
order, matching the JS timer queue. -/
def insertTE : List TimedEvent → TimedEvent → List TimedEvent
  | [], e => [e]
  | x :: xs, e => if x.time ≤ e.time then x :: insertTE xs e else e :: x :: xs

/-- Schedule a batch of (delay, event) pairs produced at time `now`. -/
def insertAll (q : List TimedEvent) (now : Nat) (evs : List (Nat × MgEvent)) :
    List TimedEvent :=
  evs.foldl (fun acc de => insertTE acc ⟨now + de.1, de.2⟩) q

/-- Run the timer queue to quiescence (`fuel` bounds the number of events
processed). -/
def runSchedule (env : MgEnv) : Nat → BattleState → List TimedEvent → BattleState
  | 0, s, _ => s
  | _ + 1, s, [] => s
  | fuel + 1, s, e :: q =>
    let r := execMgEvent env s e.ev
    runSchedule env fuel r.1 (insertAll q e.time r.2)

/-- The `Minigame` constructor state. -/
def initialBattleState (d : Tier) : BattleState :=
  { isActive := false, foxHealth := 100, spellsRemaining := 5,
    currentSpellType := .input, currentSpell := none, choiceOptions := none,
    foxPosition := .middle, liveProjectiles := [], nextProjId := 0,
    roundIdx := 0, spellSpeed := 4000, difficulty := d,
    defeatCount := 0, victoryCount := 0, bonusAwarded := 0 }

/-- `adjustDifficulty()`: per-tier spell speed and attempts budget. -/
def adjustDifficulty (s : BattleState) : BattleState :=
  match s.difficulty with
  | .beginner => { s with spellSpeed := 7000, spellsRemaining := 3 }
  | .intermediate => { s with spellSpeed := 6000, spellsRemaining := 4 }
  | .advanced => { s with spellSpeed := 5000, spellsRemaining := 5 }

/-- `startMinigame(difficulty)`: activate, full health, 5 spells, then
`adjustDifficulty` and the first cast (at time 0). -/
def startMinigame (env : MgEnv) (d : Tier) : BattleState × List TimedEvent :=
  let s :=
    { initialBattleState d with
      isActive := true, foxHealth := 100,
      spellsRemaining := 5, liveProjectiles := [] }
  let s := adjustDifficulty s
  let r := castFirstSpell env s
  (r.1, insertAll [] 0 r.2)

/-- A session whose every round is an input spell, with fixed problem draws
(beginner: every problem is `1 + 1`). -/
def inputOnlyEnv : MgEnv :=
  { typeCoin := fun _ => true, probDraws := fun _ => (0, 0, 0),
    choiceRng := fun _ _ => 0 }

/-- A session whose every round is a choice spell, with fixed draws: every
problem is `1 + 1 = 2`, wrong answers 4 and 3, correct position `high`
(so the fox, idle at `middle`, always catches a wrong answer). -/
def choiceOnlyEnv : MgEnv :=
  { typeCoin := fun _ => false, probDraws := fun _ => (0, 0, 0),
    choiceRng := fun _ _ => 0 }

/-- Player script for the C6 scenario: type the correct answer `2` at
t = 1000, 3500 and 6000 (each before the round's projectile timeout). -/
def c6Script : List TimedEvent :=
  [⟨1000, .submitSpellAnswer (.num 2)⟩, ⟨3500, .submitSpellAnswer (.num 2)⟩,
   ⟨6000, .submitSpellAnswer (.num 2)⟩]

/-- Final state of the C6 scenario: a beginner minigame, three input rounds
all answered correctly. -/
def c6Final : BattleState :=
  runSchedule inputOnlyEnv 100 (startMinigame inputOnlyEnv .beginner).1
    (c6Script.foldl insertTE (startMinigame inputOnlyEnv .beginner).2)

/-- Final state of the C5 scenario: a beginner minigame, choice rounds only,
the fox never moves and so catches the wrong middle answer of every round
while each round's auto-end timer also fires. -/
def c5Final : BattleState :=
  runSchedule choiceOnlyEnv 100 (startMinigame choiceOnlyEnv .beginner).1
    (startMinigame choiceOnlyEnv .beginner).2

/-- Claim C10: in input mode, submitting a wrong (or unparsable) typed
answer while the round is active changes nothing: the battle state is
returned unchanged and no event is scheduled — health, remaining spells and
the current problem are untouched and the round stays active for a retry. -/
theorem claim_C10_wrong_input_is_no_op (s : BattleState) (v : JSValue) (p : Problem)
    (hact : s.isActive = true) (hsp : s.currentSpell = some p)
    (hv : validateAnswer v p.answer 0 = false) :
    handleSpellDefense s v = (s, []) := by
  unfold handleSpellDefense
  rw [if_neg (by simp [hact, hsp])]
  rw [hsp]
  dsimp only
  rw [hv]
  rfl

/-- Witness for C10: a concrete active input round where the player types 7
against `1 + 1`. -/
def activeInputRound : BattleState :=
  { initialBattleState .beginner with
    isActive := true, currentSpell := some problemOnePlusOne }

theorem claim_C10_witness :
    handleSpellDefense activeInputRound (.num 7) = (activeInputRound, []) := by
  exact claim_C10_wrong_input_is_no_op _ (.num 7) problemOnePlusOne rfl rfl (by decide)


/-- Claim C6: every correct round resolution (`spellDeflected` in input mode,
`handleCorrectCatch` in choice mode) decrements `spellsRemaining` by exactly
1; when no spells remain, the post-resolution continuation fires the Victory
transition, which adds `50 + (advanced: 30, intermediate: 15, beginner: 0)`
bonus points to the main game score exactly once; a beginner minigame starts
with 3 attempts, and in the concrete all-correct beginner session Victory
fires once with bonus exactly 50. -/
theorem claim_C6_victory_and_attempts (env : MgEnv) (s : BattleState)
    (hz : s.spellsRemaining ≤ 0) :
    (∀ b : BattleState, (spellDeflected b).1.spellsRemaining = b.spellsRemaining - 1) ∧
    (∀ b : BattleState, (handleCorrectCatch b).1.spellsRemaining = b.spellsRemaining - 1) ∧
    execMgEvent env s .afterCorrect = (victory s, []) ∧
    (victory s).victoryCount = s.victoryCount + 1 ∧
    (victory s).bonusAwarded = s.bonusAwarded + victoryBonus s.difficulty ∧
    victoryBonus .beginner = 50 ∧
    (startMinigame inputOnlyEnv .beginner).1.spellsRemaining = 3 ∧
    c6Final.victoryCount = 1 ∧ c6Final.bonusAwarded = 50 ∧
    c6Final.spellsRemaining = 0 ∧ c6Final.defeatCount = 0 := by
  refine ⟨fun b => rfl, fun b => rfl, ?_, rfl, rfl, rfl, rfl, rfl, rfl, rfl, rfl⟩
  show (if s.spellsRemaining > 0 then castFirstSpell env s else (victory s, [])) = _
  rw [if_neg (by omega)]

/-- A battle state with no spells remaining. -/
def zeroSpellState : BattleState :=
  { initialBattleState .beginner with spellsRemaining := 0 }

/-- Witness for C6: with zero spells remaining, the post-correct-resolution
continuation is exactly the Victory transition. -/
theorem claim_C6_witness :
    execMgEvent inputOnlyEnv zeroSpellState .afterCorrect = (victory zeroSpellState, []) := by
  exact (claim_C6_victory_and_attempts inputOnlyEnv zeroSpellState (by decide)).2.2.1

/-- Claim C5 evaluated on the code: each incorrect resolution does set
`foxHealth = max(0, foxHealth - 25)`, but the choice round's auto-end timer
is never cancelled, so after a wrong catch it fires again for the same round
(`isActive` is still true during the 1500ms continuation window), and
neither the continuation nor `defeat()` has a re-entrancy guard: in the
concrete beginner trace the fox reaches 0 health already during round 2 and
the Defeat transition fires THREE times, not exactly once. -/
theorem claim_C5_stale_timer_multiple_defeats :
    (∀ b : BattleState,
      (handleIncorrectCatch b).1.foxHealth = max 0 (b.foxHealth - 25) ∧
      (handleMissedAnswers b).1.foxHealth = max 0 (b.foxHealth - 25)) ∧
    c5Final.foxHealth = 0 ∧ c5Final.defeatCount = 3 := by
  exact ⟨fun b => ⟨rfl, rfl⟩, rfl, rfl⟩

end MathQuiz
